import Mathlib

/-!
Verification development for the SearchOps job-search tracker (src/app.py).

The calculator logic, repository operations and CSV import/export contract
are shallowly embedded: real-valued quantities are modelled by `ℚ`,
calendar dates by their proleptic-Gregorian ordinal (`ℤ`, Python's
`date.toordinal`, ordinal 1 being a Monday), SQL tables by Lean lists of
records, and pandas dataframe rows by functions from column names to cells.
-/

namespace SearchOps

/-- Derived hour target for Networking (src/app.py line 419):
`target_networking = weekly_hours * 0.70`. -/
def target_networking (weekly_hours : ℚ) : ℚ := weekly_hours * 0.70

/-- Derived hour target for Planning (src/app.py line 420):
`target_planning = weekly_hours * 0.20`. -/
def target_planning (weekly_hours : ℚ) : ℚ := weekly_hours * 0.20

/-- Derived hour target for Applying (src/app.py line 421):
`target_applying = weekly_hours * 0.10`. -/
def target_applying (weekly_hours : ℚ) : ℚ := weekly_hours * 0.10

/-- Python `date.weekday()` on the proleptic-Gregorian ordinal: ordinal 1
(0001-01-01) is a Monday (weekday 0). -/
def weekday (d : ℤ) : ℤ := (d - 1) % 7

/-- `week_bounds` (src/app.py lines 382-386): Monday-Sunday span containing
`d`; `start = d - weekday d`, `end = start + 6`. -/
def week_bounds (d : ℤ) : ℤ × ℤ :=
  (d - weekday d, d - weekday d + 6)

/-- Claim C1: for every weekly_hours ≥ 0 the three derived targets are the
70/20/10 split, they sum to weekly_hours exactly (hence within tolerance
1e-9), and weekly_hours = 30 yields Networking 21.0, Planning 6.0,
Applying 3.0. -/
theorem alloc_targets_sum (w : ℚ) (_hw : 0 ≤ w) :
    (target_networking w = w * 0.70 ∧ target_planning w = w * 0.20 ∧
      target_applying w = w * 0.10) ∧
    target_networking w + target_planning w + target_applying w = w ∧
    |target_networking w + target_planning w + target_applying w - w| ≤ 1e-9 ∧
    (target_networking 30 = 21 ∧ target_planning 30 = 6 ∧ target_applying 30 = 3) := by
  refine ⟨⟨rfl, rfl, rfl⟩, ?_, ?_, by norm_num [target_networking, target_planning, target_applying]⟩
  · unfold target_networking target_planning target_applying
    ring
  · have h : target_networking w + target_planning w + target_applying w = w := by
      unfold target_networking target_planning target_applying
      ring
    rw [h]
    norm_num

/-- Witness for C1 at weekly_hours = 30. -/
theorem alloc_targets_sum_witness :
    (0 : ℚ) ≤ 30 ∧
    target_networking 30 + target_planning 30 + target_applying 30 = 30 :=
  ⟨by norm_num, (alloc_targets_sum 30 (by norm_num)).2.1⟩

/-- Claim C2: for every date `d`, `week_bounds d` returns a Monday start and
Sunday end with `end = start + 6`, `start ≤ d ≤ end`, and
`start = d - weekday d`. -/
theorem week_bounds_spec (d : ℤ) :
    weekday (week_bounds d).1 = 0 ∧
    weekday (week_bounds d).2 = 6 ∧
    (week_bounds d).2 = (week_bounds d).1 + 6 ∧
    (week_bounds d).1 ≤ d ∧ d ≤ (week_bounds d).2 ∧
    (week_bounds d).1 = d - weekday d := by
  unfold week_bounds weekday
  refine ⟨?_, ?_, ?_, ?_, ?_, rfl⟩ <;> simp only [] <;> omega

/-- One activity-log record: the fifteen data columns of the `activity_log`
table (src/app.py lines 43-60), without the store-assigned `id`. -/
structure ActivityRecord where
  activity_date : String
  title : String
  category : String
  channel : String
  hours : ℚ
  jobs_applied : ℤ
  followup_calls : ℤ
  outreach_msgs : ℤ
  new_linkedin_contacts : ℤ
  staffing_firms : ℤ
  networking_meetings : ℤ
  networking_events : ℤ
  phone_screens : ℤ
  onsite_interviews : ℤ
  notes : String
deriving DecidableEq

/-- The three fixed category values the dashboard reindexes onto
(src/app.py line 579). -/
def categories : List String := ["Networking", "Planning", "Applying"]

/-- Hours summed over the rows of one category:
`df_week.groupby("category")["hours"].sum()` restricted to `c`
(src/app.py lines 576-578). -/
def category_hours (rows : List ActivityRecord) (c : String) : ℚ :=
  ((rows.filter (fun r => r.category == c)).map ActivityRecord.hours).sum

/-- The reindexed category series `hours_by_cat` (src/app.py lines 576-581):
exactly the three fixed categories, absent ones filled with 0. -/
def hours_by_cat (rows : List ActivityRecord) : List (String × ℚ) :=
  categories.map (fun c => (c, category_hours rows c))

/-- `total_hours = float(hours_by_cat.sum())` (src/app.py line 582): the sum
of the three reindexed category sums. -/
def total_hours (rows : List ActivityRecord) : ℚ :=
  ((hours_by_cat rows).map Prod.snd).sum

theorem category_hours_cons (r : ActivityRecord) (rows : List ActivityRecord)
    (c : String) :
    category_hours (r :: rows) c =
      (if r.category = c then r.hours else 0) + category_hours rows c := by
  by_cases h : r.category = c <;> simp [category_hours, List.filter_cons, h]

theorem total_hours_eq (rows : List ActivityRecord) :
    total_hours rows =
      category_hours rows "Networking" + category_hours rows "Planning" +
        category_hours rows "Applying" := by
  simp [total_hours, hours_by_cat, categories]
  ring

/-- A row whose category lies outside the three fixed values. -/
def other_row : ActivityRecord :=
  { activity_date := "2025-01-06", title := "misc", category := "Other",
    channel := "Network", hours := 1, jobs_applied := 0, followup_calls := 0,
    outreach_msgs := 0, new_linkedin_contacts := 0, staffing_firms := 0,
    networking_meetings := 0, networking_events := 0, phone_screens := 0,
    onsite_interviews := 0, notes := "" }

/-- Counterexample to C3 as stated: a single row with category `Other` and
hours 1 gives a displayed weekly total of 0, not the sum 1 of the rows'
hours. -/
theorem total_hours_ne_row_sum :
    ¬ (total_hours [other_row] =
        (([other_row] : List ActivityRecord).map ActivityRecord.hours).sum) := by
  simp [total_hours, hours_by_cat, categories, category_hours, other_row,
    List.filter]

/-- Claim C3 (amended): the aggregation reports exactly the three categories
Networking, Planning, Applying (0 substituted when a category has no rows),
the displayed total equals the sum of the three category sums, and whenever
every row's category is one of the three fixed values the total also equals
the sum of the rows' hours. -/
theorem cat_aggregation (rows : List ActivityRecord) :
    (hours_by_cat rows).map Prod.fst = categories ∧
    total_hours rows =
      category_hours rows "Networking" + category_hours rows "Planning" +
        category_hours rows "Applying" ∧
    ((∀ r ∈ rows, r.category ∈ categories) →
      total_hours rows = (rows.map ActivityRecord.hours).sum) := by
  refine ⟨by simp [hours_by_cat, categories], total_hours_eq rows, ?_⟩
  intro h
  induction rows with
  | nil => simp [total_hours, hours_by_cat, categories, category_hours]
  | cons r rs ih =>
    have hr : r.category ∈ categories := h r (List.mem_cons_self r rs)
    have ih2 := ih (fun x hx => h x (List.mem_cons_of_mem r hx))
    rw [total_hours_eq] at ih2 ⊢
    rw [category_hours_cons, category_hours_cons, category_hours_cons]
    simp only [List.map_cons, List.sum_cons]
    simp only [categories, List.mem_cons, List.not_mem_nil, or_false] at hr
    rcases hr with h1 | h1 | h1 <;> simp [h1] <;> linarith

/-- A row with category `Networking`. -/
def net_row : ActivityRecord := { other_row with category := "Networking" }

/-- Witness for the amended C3 on a one-row list with category
`Networking`: the in-enum hypothesis is discharged concretely. -/
theorem cat_aggregation_witness :
    total_hours [net_row] =
      (([net_row] : List ActivityRecord).map ActivityRecord.hours).sum :=
  (cat_aggregation [net_row]).2.2 (by decide)

/-- Claim C10: a row whose category is outside the three fixed values
contributes to none of the three category sums and not to the displayed
weekly total. -/
theorem out_of_enum_excluded (rows : List ActivityRecord) (r : ActivityRecord)
    (h : r.category ∉ categories) :
    (∀ c ∈ categories, category_hours (r :: rows) c = category_hours rows c) ∧
    total_hours (r :: rows) = total_hours rows := by
  have hc : ∀ c ∈ categories, r.category ≠ c := fun c hcm heq => h (heq ▸ hcm)
  constructor
  · intro c hcm
    rw [category_hours_cons, if_neg (hc c hcm)]
    ring
  · rw [total_hours_eq, total_hours_eq, category_hours_cons,
      category_hours_cons, category_hours_cons,
      if_neg (hc _ (by simp [categories])),
      if_neg (hc _ (by simp [categories])),
      if_neg (hc _ (by simp [categories]))]
    ring

/-- Witness for C10 with the concrete `Other`-category row. -/
theorem out_of_enum_excluded_witness :
    total_hours [other_row] = total_hours [] :=
  (out_of_enum_excluded [] other_row (by decide)).2

/-- Number of rows of the week logged on date `d`:
`actions_by_day = df_week2.groupby("activity_date")["id"].count()` at `d`
(src/app.py lines 602-604). -/
def actions_by_day (rows : List ActivityRecord) (d : String) : ℕ :=
  (rows.filter (fun r => r.activity_date == d)).length

/-- The distinct dates occurring among the week's rows (the index of the
`groupby("activity_date")` series, src/app.py line 604). -/
def week_days (rows : List ActivityRecord) : List String :=
  (rows.map ActivityRecord.activity_date).dedup

/-- `days_with_actions = int((actions_by_day > 0).sum())`
(src/app.py line 606). -/
def days_with_actions (rows : List ActivityRecord) : ℕ :=
  ((week_days rows).filter (fun d => decide (0 < actions_by_day rows d))).length

/-- `days_meeting_5 = int((actions_by_day >= target_actions_per_day).sum())`
(src/app.py line 607). -/
def days_meeting_target (t : ℕ) (rows : List ActivityRecord) : ℕ :=
  ((week_days rows).filter (fun d => decide (t ≤ actions_by_day rows d))).length

/-- The C4 scenario week: six rows on Monday 2025-01-06 and two rows on
Wednesday 2025-01-08. -/
def scenario_week : List ActivityRecord :=
  List.replicate 6 net_row ++
    List.replicate 2 { net_row with activity_date := "2025-01-08" }

/-- Claim C4: a date shows up in the grouped index exactly when some row
carries it and its count is the number of its rows, `days_with_actions`
counts the dates with at least one row, `days_meeting_target` counts the
dates whose row count reaches the configured target, and the scenario week
(6 Monday rows, 2 Wednesday rows, target 5) gives 2 and 1. -/
theorem five_by_five_check (rows : List ActivityRecord) (t : ℕ) :
    (∀ d, d ∈ week_days rows ↔ ∃ r ∈ rows, r.activity_date = d) ∧
    (∀ d, 0 < actions_by_day rows d ↔ ∃ r ∈ rows, r.activity_date = d) ∧
    days_with_actions rows = (week_days rows).length ∧
    days_meeting_target t rows =
      ((week_days rows).filter (fun d => decide (t ≤ actions_by_day rows d))).length ∧
    days_with_actions scenario_week = 2 ∧
    days_meeting_target 5 scenario_week = 1 := by
  have hmem : ∀ d, d ∈ week_days rows ↔ ∃ r ∈ rows, r.activity_date = d := by
    intro d
    simp [week_days, List.mem_dedup, List.mem_map]
  have hpos : ∀ d, 0 < actions_by_day rows d ↔ ∃ r ∈ rows, r.activity_date = d := by
    intro d
    unfold actions_by_day
    rw [List.length_pos]
    constructor
    · intro hne
      obtain ⟨r, hr⟩ := List.exists_mem_of_ne_nil _ hne
      have := List.mem_filter.mp hr
      exact ⟨r, this.1, by simpa using this.2⟩
    · rintro ⟨r, hr, hd⟩
      exact List.ne_nil_of_mem (List.mem_filter.mpr ⟨hr, by simp [hd]⟩)
  refine ⟨hmem, hpos, ?_, rfl, by decide, by decide⟩
  unfold days_with_actions
  congr 1
  apply List.filter_eq_self.mpr
  intro d hd
  simpa using (hpos d).mpr ((hmem d).mp hd)

/-- The settings singleton row (src/app.py lines 20-24). -/
structure Settings where
  weekly_hours : ℚ
  target_actions_per_day : ℤ
deriving DecidableEq

/-- A row of the `targets` table (src/app.py lines 29-38). -/
structure Target where
  id : ℕ
  name : String
  company : String
  role : String
  stage : String
  notes : String
  is_active : Bool
  created_at : String
deriving DecidableEq

/-- A stored activity-log row: the store-assigned `id` plus the fifteen
data columns. -/
structure StoredActivity where
  id : ℕ
  fields : ActivityRecord
deriving DecidableEq

/-- A row of the `networking_contacts` table (src/app.py lines 65-76). -/
structure Contact where
  id : ℕ
  name : String
  company : String
  title : String
  relationship_type : String
  source : String
  status : String
  tags : String
  notes : String
  created_at : String
deriving DecidableEq

/-- A row of the `networking_interactions` table (src/app.py lines 81-94);
`contact_id` carries the cascade-delete foreign key, `follow_up_date` is
nullable. -/
structure Interaction where
  id : ℕ
  contact_id : ℕ
  interaction_date : String
  mode : String
  interaction_type : String
  outcome : String
  duration_minutes : ℤ
  summary : String
  next_step : String
  follow_up_date : Option String
  created_at : String
deriving DecidableEq

/-- A row of the `networking_scripts` table (src/app.py lines 99-106),
without the store-assigned id. -/
structure Script where
  category : String
  title : String
  body : String
  char_limit : Option ℤ
  is_default : Bool
deriving DecidableEq

/-- The whole store: the six tables created by `init_db`
(src/app.py lines 17-113). -/
structure Store where
  settings : Settings
  targets : List Target
  activity_log : List StoredActivity
  networking_contacts : List Contact
  networking_interactions : List Interaction
  networking_scripts : List Script
deriving DecidableEq

/-- `delete_activity` (src/app.py lines 363-365):
`DELETE FROM activity_log WHERE id = ?`. -/
def delete_activity (s : Store) (activity_id : ℕ) : Store :=
  { s with activity_log := s.activity_log.filter (fun r => r.id != activity_id) }

/-- Modelled from the spec: no delete-contact operation exists in
src/app.py; this is the store-level meaning of `DELETE FROM
networking_contacts WHERE id = ?` under the schema's
`FOREIGN KEY (contact_id) ... ON DELETE CASCADE` (src/app.py line 93) with
`PRAGMA foreign_keys = ON` (src/app.py line 13): the contact row is removed
and every interaction referencing it is removed with it. -/
def delete_contact (s : Store) (cid : ℕ) : Store :=
  { s with
    networking_contacts := s.networking_contacts.filter (fun c => c.id != cid),
    networking_interactions :=
      s.networking_interactions.filter (fun i => i.contact_id != cid) }

/-- Claim C7: `delete_activity` keeps exactly the activity rows with a
different id (in their original order), touches no other table, and is a
no-op when no row has the given id. -/
theorem delete_activity_spec (s : Store) (aid : ℕ) :
    (delete_activity s aid).activity_log =
      s.activity_log.filter (fun r => r.id != aid) ∧
    (∀ r, r ∈ (delete_activity s aid).activity_log ↔
      r ∈ s.activity_log ∧ r.id ≠ aid) ∧
    (delete_activity s aid).settings = s.settings ∧
    (delete_activity s aid).targets = s.targets ∧
    (delete_activity s aid).networking_contacts = s.networking_contacts ∧
    (delete_activity s aid).networking_interactions = s.networking_interactions ∧
    (delete_activity s aid).networking_scripts = s.networking_scripts ∧
    ((∀ r ∈ s.activity_log, r.id ≠ aid) → delete_activity s aid = s) := by
  refine ⟨rfl, ?_, rfl, rfl, rfl, rfl, rfl, ?_⟩
  · intro r
    simp [delete_activity, List.mem_filter]
  · intro h
    unfold delete_activity
    rw [List.filter_eq_self.mpr (fun r hr => by simpa using h r hr)]

/-- A small concrete store used by the deletion witnesses. -/
def store_a : Store :=
  { settings := ⟨30, 5⟩,
    targets := [⟨1, "Acme", "Acme", "PM", "Prospecting", "", true, "2025-01-01T00:00:00"⟩],
    activity_log := [⟨1, net_row⟩, ⟨2, other_row⟩],
    networking_contacts :=
      [⟨1, "Ada", "Acme", "CTO", "Peer", "LinkedIn", "New", "", "", "2025-01-01T00:00:00"⟩,
       ⟨2, "Bob", "Birch", "VP", "Peer", "Event", "New", "", "", "2025-01-02T00:00:00"⟩],
    networking_interactions :=
      [⟨1, 1, "2025-01-06", "Email", "Outreach", "Replied", 15, "", "", none, "2025-01-06T00:00:00"⟩,
       ⟨2, 2, "2025-01-07", "Phone", "Meeting", "Met", 30, "", "", some "2025-01-10", "2025-01-07T00:00:00"⟩],
    networking_scripts := [] }

/-- Witness for C7: deleting a nonexistent id from the concrete store is a
no-op. -/
theorem delete_activity_spec_witness :
    delete_activity store_a 99 = store_a :=
  (delete_activity_spec store_a 99).2.2.2.2.2.2.2 (by decide)

/-- Claim C8: deleting a contact removes exactly the interactions whose
`contact_id` references it and exactly that contact row, and leaves the
other tables untouched. -/
theorem delete_contact_cascade (s : Store) (cid : ℕ) :
    (∀ i, i ∈ (delete_contact s cid).networking_interactions ↔
      i ∈ s.networking_interactions ∧ i.contact_id ≠ cid) ∧
    (∀ c, c ∈ (delete_contact s cid).networking_contacts ↔
      c ∈ s.networking_contacts ∧ c.id ≠ cid) ∧
    (delete_contact s cid).settings = s.settings ∧
    (delete_contact s cid).targets = s.targets ∧
    (delete_contact s cid).activity_log = s.activity_log ∧
    (delete_contact s cid).networking_scripts = s.networking_scripts := by
  refine ⟨?_, ?_, rfl, rfl, rfl, rfl⟩ <;>
    intro x <;> simp [delete_contact, List.mem_filter]

/-- The five fixed script templates inserted by `seed_networking_scripts`
(src/app.py lines 135-171). -/
def script_seeds : List Script :=
  [{ category := "Ask - Unknown", title := "Intro + 20-min ask",
     body := "Hi [Name], I came across your profile while researching [Company/Topic]. I appreciate your work on [specific]. I am exploring [goal] and would value 2-3 quick questions about your experience. Would you be open to a 15-20 minute call next week?",
     char_limit := none, is_default := true },
   { category := "Ask - Warm Referral", title := "Referral ask",
     body := "Hi [Name], [Referrer] suggested I reach out. I am exploring [industry/role] and would appreciate your perspective on [Company/Topic]. If you are open to it, could we connect for 15-20 minutes? Happy to work around your schedule.",
     char_limit := none, is_default := true },
   { category := "Ask - Recent Contact", title := "Event follow-up ask",
     body := "Hi [Name], it was great meeting you at [Event]. I enjoyed our conversation about [topic]. If you are open to it, I would love to ask 2-3 questions about your role at [Company]. Would you be available for a brief coffee or call next week?",
     char_limit := none, is_default := true },
   { category := "LinkedIn Invite", title := "Connection request (300 chars)",
     body := "Hi [Name], enjoyed your insights on [topic] and noticed we share [commonality]. I would love to connect and stay in touch. Thanks, [Your Name]",
     char_limit := some 300, is_default := true },
   { category := "Follow-up", title := "Thank you + recap",
     body := "Hi [Name], thank you again for your time today. I appreciated your advice on [topic]. As promised, I am sending [resource]. If helpful, I can keep you posted as I progress. Thanks again.",
     char_limit := none, is_default := true }]

/-- `seed_networking_scripts` (src/app.py lines 131-176): if the table
already holds any row, return unchanged; otherwise insert the five seeds. -/
def seed_networking_scripts (table : List Script) : List Script :=
  if 0 < table.length then table else table ++ script_seeds

theorem seed_of_nonempty (table : List Script) (h : table ≠ []) :
    seed_networking_scripts table = table := by
  unfold seed_networking_scripts
  rw [if_pos (List.length_pos.mpr h)]

/-- Claim C9: seeding an empty scripts table yields exactly the five fixed
rows, seeding is skipped as soon as any row exists, and any positive number
of initializations starting from an empty table leaves exactly the five
seed rows. -/
theorem seed_scripts_idempotent (table : List Script) (n : ℕ) (hn : 1 ≤ n) :
    script_seeds.length = 5 ∧
    seed_networking_scripts [] = script_seeds ∧
    (table ≠ [] → seed_networking_scripts table = table) ∧
    seed_networking_scripts^[n] [] = script_seeds := by
  refine ⟨rfl, by simp [seed_networking_scripts], seed_of_nonempty table, ?_⟩
  obtain ⟨m, rfl⟩ : ∃ m, n = m + 1 := ⟨n - 1, by omega⟩
  rw [Function.iterate_succ_apply]
  have h0 : seed_networking_scripts [] = script_seeds := by
    simp [seed_networking_scripts]
  rw [h0]
  have hfix : ∀ k : ℕ, seed_networking_scripts^[k] script_seeds = script_seeds := by
    intro k
    induction k with
    | zero => rfl
    | succ j ih =>
      rw [Function.iterate_succ_apply, seed_of_nonempty _ (by simp [script_seeds])]
      exact ih
  exact hfix m

/-- Witness for C9: three initializations from empty give the five seeds. -/
theorem seed_scripts_idempotent_witness :
    seed_networking_scripts^[3] [] = script_seeds :=
  (seed_scripts_idempotent [] 3 (by norm_num)).2.2.2

/-- One dataframe cell: pandas reads text columns as strings, REAL columns
as floats (modelled by `ℚ`) and INTEGER columns as integers. -/
inductive Cell where
  | str (s : String)
  | num (q : ℚ)
  | int (k : ℤ)
deriving DecidableEq

/-- Text content of a cell; non-text cells never occur in the columns this
is applied to. -/
def as_str : Cell → String
  | Cell.str s => s
  | _ => ""

/-- Numeric content of a cell. -/
def as_num : Cell → ℚ
  | Cell.num q => q
  | Cell.int k => (k : ℚ)
  | Cell.str _ => 0

/-- Integer content of a cell. -/
def as_int : Cell → ℤ
  | Cell.int k => k
  | Cell.num q => ⌊q⌋
  | Cell.str _ => 0

/-- `required_cols` of the CSV import (src/app.py lines 1108-1112): the
fifteen data columns of the activity log. -/
def required_cols : List String :=
  ["activity_date", "title", "category", "channel", "hours",
   "jobs_applied", "followup_calls", "outreach_msgs", "new_linkedin_contacts",
   "staffing_firms", "networking_meetings", "networking_events",
   "phone_screens", "onsite_interviews", "notes"]

/-- `sorted(required_cols - set(df_in.columns))` (src/app.py lines
1113-1115): the required columns absent from the uploaded header, in
ascending order. -/
def missing_cols (header : List String) : List String :=
  List.insertionSort (fun a b => a ≤ b)
    (required_cols.filter (fun c => !header.contains c))

/-- `{k: r[k] for k in required_cols}` (src/app.py line 1120): the record
built from one uploaded row, reading exactly the fifteen required columns. -/
def record_of_row (r : String → Cell) : ActivityRecord :=
  { activity_date := as_str (r "activity_date"),
    title := as_str (r "title"),
    category := as_str (r "category"),
    channel := as_str (r "channel"),
    hours := as_num (r "hours"),
    jobs_applied := as_int (r "jobs_applied"),
    followup_calls := as_int (r "followup_calls"),
    outreach_msgs := as_int (r "outreach_msgs"),
    new_linkedin_contacts := as_int (r "new_linkedin_contacts"),
    staffing_firms := as_int (r "staffing_firms"),
    networking_meetings := as_int (r "networking_meetings"),
    networking_events := as_int (r "networking_events"),
    phone_screens := as_int (r "phone_screens"),
    onsite_interviews := as_int (r "onsite_interviews"),
    notes := as_str (r "notes") }

/-- The id `INTEGER PRIMARY KEY AUTOINCREMENT` assigns to the next insert. -/
def next_id (log : List StoredActivity) : ℕ :=
  (log.map StoredActivity.id).foldr max 0 + 1

/-- `add_activity` (src/app.py lines 228-232): insert one row into
`activity_log`; the store assigns the id. -/
def add_activity (log : List StoredActivity) (a : ActivityRecord) :
    List StoredActivity :=
  log ++ [{ id := next_id log, fields := a }]

/-- The CSV import path (src/app.py lines 1104-1121): reject the whole file
with the sorted missing-column list when any required column is absent,
otherwise append every row via `add_activity`. -/
def append_from_csv (header : List String) (rows : List (String → Cell))
    (log : List StoredActivity) : Except (List String) (List StoredActivity) :=
  if missing_cols header = [] then
    Except.ok (rows.foldl (fun acc r => add_activity acc (record_of_row r)) log)
  else
    Except.error (missing_cols header)

/-- The dataframe row of one activity record under the fifteen column
names. -/
def row_of_record (a : ActivityRecord) : String → Cell := fun c =>
  if c = "activity_date" then Cell.str a.activity_date
  else if c = "title" then Cell.str a.title
  else if c = "category" then Cell.str a.category
  else if c = "channel" then Cell.str a.channel
  else if c = "hours" then Cell.num a.hours
  else if c = "jobs_applied" then Cell.int a.jobs_applied
  else if c = "followup_calls" then Cell.int a.followup_calls
  else if c = "outreach_msgs" then Cell.int a.outreach_msgs
  else if c = "new_linkedin_contacts" then Cell.int a.new_linkedin_contacts
  else if c = "staffing_firms" then Cell.int a.staffing_firms
  else if c = "networking_meetings" then Cell.int a.networking_meetings
  else if c = "networking_events" then Cell.int a.networking_events
  else if c = "phone_screens" then Cell.int a.phone_screens
  else if c = "onsite_interviews" then Cell.int a.onsite_interviews
  else if c = "notes" then Cell.str a.notes
  else Cell.str ""

/-- The exported dataframe row of a stored activity: `SELECT *` on
`activity_log` (src/app.py lines 368-379) yields the id column followed by
the fifteen data columns. -/
def row_of_stored (a : StoredActivity) : String → Cell := fun c =>
  if c = "id" then Cell.int (a.id : ℤ) else row_of_record a.fields c

/-- The header of `df_week.to_csv` (src/app.py line 1063): id plus the
fifteen data columns. -/
def export_header : List String := "id" :: required_cols

theorem record_row_of_stored (a : StoredActivity) :
    record_of_row (row_of_stored a) = a.fields := rfl

theorem foldl_add_activity_map (rows : List (String → Cell)) :
    ∀ log : List StoredActivity,
      (rows.foldl (fun acc r => add_activity acc (record_of_row r)) log).map
          StoredActivity.fields =
        log.map StoredActivity.fields ++ rows.map (fun r => record_of_row r) := by
  induction rows with
  | nil => intro log; simp
  | cons r rs ih =>
    intro log
    simp only [List.foldl_cons, List.map_cons]
    rw [ih]
    simp [add_activity]

theorem missing_cols_eq_nil_iff (header : List String) :
    missing_cols header = [] ↔ ∀ c ∈ required_cols, c ∈ header := by
  unfold missing_cols
  constructor
  · intro h c hc
    by_contra hnot
    have hmem : c ∈ List.insertionSort (fun a b => a ≤ b)
        (required_cols.filter (fun c => !header.contains c)) := by
      rw [List.mem_insertionSort, List.mem_filter]
      exact ⟨hc, by simp [hnot]⟩
    rw [h] at hmem
    exact List.not_mem_nil c hmem
  · intro h
    have hf : required_cols.filter (fun c => !header.contains c) = [] := by
      rw [List.filter_eq_nil_iff]
      intro c hc
      simp [h c hc]
    rw [hf]
    rfl

/-- Claim C5: the import rejects the whole file with the sorted list of the
missing required columns whenever any of the fifteen is absent (appending
nothing), accepts and appends every row unvalidated otherwise, ignores
extra columns, and a file missing only `hours` is rejected naming exactly
`["hours"]`. -/
theorem csv_import_contract (header : List String)
    (rows : List (String → Cell)) (log : List StoredActivity) :
    (missing_cols header ≠ [] →
      append_from_csv header rows log = Except.error (missing_cols header)) ∧
    (missing_cols header = [] →
      append_from_csv header rows log =
        Except.ok (rows.foldl (fun acc r => add_activity acc (record_of_row r)) log)) ∧
    List.Sorted (fun a b => a ≤ b) (missing_cols header) ∧
    (∀ c, c ∈ missing_cols header ↔ c ∈ required_cols ∧ c ∉ header) ∧
    (missing_cols header = [] → ∀ extra,
      append_from_csv (header ++ extra) rows log = append_from_csv header rows log) ∧
    missing_cols (required_cols.erase "hours") = ["hours"] := by
  refine ⟨?_, ?_, ?_, ?_, ?_, by decide⟩
  · intro h
    unfold append_from_csv
    rw [if_neg h]
  · intro h
    unfold append_from_csv
    rw [if_pos h]
  · exact List.sorted_insertionSort _ _
  · intro c
    unfold missing_cols
    rw [List.mem_insertionSort, List.mem_filter]
    simp
  · intro h extra
    have h2 : missing_cols (header ++ extra) = [] := by
      rw [missing_cols_eq_nil_iff]
      intro c hc
      exact List.mem_append_left extra ((missing_cols_eq_nil_iff header).mp h c hc)
    unfold append_from_csv
    rw [if_pos h, if_pos h2]

/-- Witness for C5: importing any file whose header lacks exactly `hours`
is rejected naming `["hours"]`. -/
theorem csv_import_contract_witness :
    append_from_csv (required_cols.erase "hours") [] [] =
      Except.error ["hours"] := by
  have h := csv_import_contract (required_cols.erase "hours")
    ([] : List (String → Cell)) []
  have hm : missing_cols (required_cols.erase "hours") = ["hours"] :=
    h.2.2.2.2.2
  have hne : missing_cols (required_cols.erase "hours") ≠ [] := by
    rw [hm]
    simp
  rw [h.1 hne, hm]

/-- Claim C6: exporting a week of stored activities and re-importing the
produced table appends rows identical to the originals in all fifteen
tracked fields; only the store-assigned ids may differ. -/
theorem csv_round_trip (week log : List StoredActivity) :
    ∃ result,
      append_from_csv export_header (week.map row_of_stored) log =
        Except.ok result ∧
      result.map StoredActivity.fields =
        log.map StoredActivity.fields ++ week.map StoredActivity.fields := by
  have hm : missing_cols export_header = [] := by decide
  refine ⟨(week.map row_of_stored).foldl
      (fun acc r => add_activity acc (record_of_row r)) log, ?_, ?_⟩
  · unfold append_from_csv
    rw [if_pos hm]
  · rw [foldl_add_activity_map]
    congr 1
    rw [List.map_map]
    have hcomp : ((fun r => record_of_row r) ∘ row_of_stored) =
        StoredActivity.fields :=
      funext record_row_of_stored
    rw [hcomp]

end SearchOps
